import Mathlib

/-!
Shallow embedding of the telemetry-bridge core of src/app.py
(Smart plant monitoring and auto watering using IOT).

The embedded pieces are:
- the line decoder of read_serial_thread (lines 141-165): JSON-parse a
  trimmed serial line, classify it as a sensor_update telemetry event or a
  serial_line pass-through event;
- the simulated reading of fake_sensor_thread (lines 168-180);
- the three socket command handlers handle_toggle, handle_set_auto and
  handle_clear_manual (lines 183-237), including the permissive
  integer coercion of the state flag and the serial-absent /
  write-failure fallback responses;
- the outbound command codec implicit in the f-strings of the handlers.

External library calls (json.loads, the Python int builtin, ser.write,
random.randint / random.uniform) are modelled at their documented
interface: parse results, write outcomes and random draws are explicit
inputs of the embedded functions.
-/

set_option autoImplicit false

namespace App

/-- Values produced by the structured (JSON) parser json.loads; numbers are
carried as exact rationals. A successful parse can yield any of these, not
only objects. -/
inductive Json : Type where
  | null : Json
  | bool (b : Bool) : Json
  | num (q : Rat) : Json
  | str (s : String) : Json
  | arr (elems : List Json) : Json
  | obj (kvs : List (String × Json)) : Json

/-- Stripping of leading and trailing whitespace from a character list,
used to model the Python str.strip method (at ASCII whitespace). -/
def stripChars (l : List Char) : List Char :=
  (((l.dropWhile Char.isWhitespace).reverse).dropWhile Char.isWhitespace).reverse

/-- The Python str.strip method with no arguments: remove leading and
trailing whitespace. -/
def pyStrip (s : String) : String :=
  ⟨stripChars s.data⟩

/-- Whether a parsed JSON value is an object (a Python dict, the only kind
of value on which data.keys() is defined). -/
def Json.isObj : Json → Bool
  | .obj _ => true
  | _ => false

/-- The required key set of read_serial_thread (src/app.py line 154):
mq, soil, temp, hum, relay. -/
def requiredKeys : List String := ["mq", "soil", "temp", "hum", "relay"]

/-- The test expected.issubset(set(data.keys())) of src/app.py line 155:
every required key occurs among the keys of the parsed object. -/
def subsetKeys (req : List String) (kvs : List (String × Json)) : Bool :=
  req.all (fun k => kvs.any (fun kv => kv.fst = k))

/-- Outcome of one decode attempt on a non-blank trimmed line in
read_serial_thread (src/app.py lines 152-161). Constructor sensorUpdate is
emitted as a sensor_update event carrying the parsed object (the
TelemetryRecord of the spec); serialLine is emitted as a serial_line event
carrying the trimmed text (the OpaqueLine of the spec); raised is the path
where json.loads succeeded with a non-object value, so data.keys() raises
AttributeError, which escapes the inner JSONDecodeError handler and is
swallowed by the catch-all handler of the read loop: nothing is emitted
for that line. -/
inductive DecodeOutcome : Type where
  | sensorUpdate (data : List (String × Json)) : DecodeOutcome
  | serialLine (line : String) : DecodeOutcome
  | raised : DecodeOutcome

/-- Whether a decode outcome delivers an event to the broadcast hub. -/
def DecodeOutcome.delivered : DecodeOutcome → Bool
  | .raised => false
  | _ => true

/-- The decode step of read_serial_thread (src/app.py lines 152-161) on a
trimmed line: parsed is the result of json.loads on the line, with none
standing for a JSONDecodeError. An object containing all required keys is
emitted as sensor_update; an object missing a key, or a parse failure, is
emitted as serial_line with the trimmed text; a non-object parse result
raises (see DecodeOutcome.raised). -/
def decode (line : String) (parsed : Option Json) : DecodeOutcome :=
  match parsed with
  | none => .serialLine line
  | some (Json.obj kvs) =>
      if subsetKeys requiredKeys kvs then .sensorUpdate kvs else .serialLine line
  | some _ => .raised

/-- One iteration of the body of read_serial_thread on a successfully read
raw chunk (src/app.py lines 143-161): an empty read or a line that is blank
after stripping is skipped (none); otherwise the stripped line is decoded.
The parse argument abstracts json.loads. -/
def read_loop_body (raw : String) (parse : String → Option Json) : Option DecodeOutcome :=
  if raw = "" then none
  else if pyStrip raw = "" then none
  else some (decode (pyStrip raw) (parse (pyStrip raw)))

/-- Python values that can appear as the state entry of an inbound socket
payload; float values are carried as exact rationals, and constructor other
stands for any value on which the int builtin raises a TypeError (lists,
dicts; the Python value None is listed separately as noneV). -/
inductive PyValue : Type where
  | int (n : Int) : PyValue
  | bool (b : Bool) : PyValue
  | float (q : Rat) : PyValue
  | str (s : String) : PyValue
  | noneV : PyValue
  | other : PyValue

/-- Truncation of a rational toward zero, the behavior of the Python int
builtin on a (finite) float. -/
def ratTrunc (q : Rat) : Int :=
  if 0 ≤ q then ⌊q⌋ else ⌈q⌉

/-- Value of a nonempty decimal digit run, most significant digit first. -/
def decDigitsVal (l : List Char) (acc : Nat) : Nat :=
  match l with
  | [] => acc
  | c :: cs => decDigitsVal cs (acc * 10 + (c.toNat - 48))

/-- Parse of a character list as a nonempty unsigned decimal numeral. -/
def parseDecNat (l : List Char) : Option Nat :=
  if l ≠ [] ∧ l.all Char.isDigit then some (decDigitsVal l 0) else none

/-- The Python int builtin on a string, by its documented behavior:
surrounding whitespace is stripped, then an optional sign followed by a
nonempty digit run is accepted; anything else raises ValueError
(digit-group underscores are not modelled). -/
def pyIntOfStr (s : String) : Option Int :=
  match stripChars s.data with
  | '-' :: rest => (parseDecNat rest).map (fun n => -(n : Int))
  | '+' :: rest => (parseDecNat rest).map (fun n => (n : Int))
  | l => (parseDecNat l).map (fun n => (n : Int))

/-- The Python int builtin at its documented interface: none models a
raised TypeError / ValueError. -/
def pyInt : PyValue → Option Int
  | .int n => some n
  | .bool b => some (if b then 1 else 0)
  | .float q => some (ratTrunc q)
  | .str s => pyIntOfStr s
  | .noneV => none
  | .other => none

/-- The coercion of the state flag in handle_toggle and handle_set_auto
(src/app.py lines 186-189 and 206-209): data.get returns the default 0
when the state entry is missing, and a non-convertible value makes the int
builtin raise, which the except branch turns into 0. -/
def coerceState (v : Option PyValue) : Int :=
  match v with
  | none => 0
  | some x => (pyInt x).getD 0

/-- The RELAY command f-string of src/app.py line 190: any nonzero coerced
state is truthy and selects 1. -/
def relayCmd (state : Int) : String :=
  "RELAY:" ++ (if state = 0 then "0" else "1") ++ "\n"

/-- The AUTO command f-string of src/app.py line 210. -/
def autoCmd (state : Int) : String :=
  "AUTO:" ++ (if state = 0 then "0" else "1") ++ "\n"

/-- The constant MANUAL command of src/app.py line 226. -/
def manualCmd : String := "MANUAL:0\n"

/-- Outcome of the ser.write call (pyserial, external): it either succeeds
or raises an exception carrying a message. -/
inductive WriteResult : Type where
  | ok : WriteResult
  | exn (msg : String) : WriteResult
deriving DecidableEq

/-- The global ser handle as the handlers see it: either truthy (connected,
together with the outcome the next ser.write would have) or the Python
value None (disconnected). -/
inductive ConnectionState : Type where
  | connected (w : WriteResult) : ConnectionState
  | disconnected : ConnectionState
deriving DecidableEq

/-- Payload dictionary of an acknowledgement event, by the exact key set
the handlers put in it: sent n is the dict with single key sent; errorOnly
is the dict with single key error (no would_send key); errorWouldSend is
the dict with keys error and would_send; okFlag is the dict with key ok
holding True. -/
inductive AckPayload : Type where
  | sent (n : Int) : AckPayload
  | errorOnly (error : String) : AckPayload
  | errorWouldSend (error : String) (would_send : String) : AckPayload
  | okFlag : AckPayload
deriving DecidableEq

/-- Whether an acknowledgement payload carries a would_send entry. -/
def AckPayload.hasWouldSend : AckPayload → Bool
  | .errorWouldSend _ _ => true
  | _ => false

/-- Whether an acknowledgement payload is a failure (carries an error
entry). -/
def AckPayload.isFailure : AckPayload → Bool
  | .errorOnly _ => true
  | .errorWouldSend _ _ => true
  | _ => false

/-- What one socket handler does: the line written to the serial device, if
any, and the acknowledgement event (name and payload) emitted back to the
requesting session. -/
structure HandlerOutcome : Type where
  written : Option String
  event : String
  payload : AckPayload
deriving DecidableEq

/-- The toggle_relay handler handle_toggle (src/app.py lines 183-201):
coerce the state, build the RELAY command; if ser is truthy, write the
command and ack the dict with sent holding the coerced state, a write
exception acks the dict with only the error text; without serial nothing
is written and the ack carries the error text serial not connected
together with the stripped command as would_send. -/
def handle_toggle (stateV : Option PyValue) (conn : ConnectionState) : HandlerOutcome :=
  let state := coerceState stateV
  let cmd := relayCmd state
  match conn with
  | .connected .ok => ⟨some cmd, "relay_ack", .sent state⟩
  | .connected (.exn e) => ⟨none, "relay_ack", .errorOnly e⟩
  | .disconnected => ⟨none, "relay_ack", .errorWouldSend "serial not connected" (pyStrip cmd)⟩

/-- The set_auto handler handle_set_auto (src/app.py lines 203-221),
identical to handle_toggle up to the AUTO command and the auto_ack
event name. -/
def handle_set_auto (stateV : Option PyValue) (conn : ConnectionState) : HandlerOutcome :=
  let state := coerceState stateV
  let cmd := autoCmd state
  match conn with
  | .connected .ok => ⟨some cmd, "auto_ack", .sent state⟩
  | .connected (.exn e) => ⟨none, "auto_ack", .errorOnly e⟩
  | .disconnected => ⟨none, "auto_ack", .errorWouldSend "serial not connected" (pyStrip cmd)⟩

/-- The clear_manual handler handle_clear_manual (src/app.py lines
223-237): no payload, constant command, success acks the dict with ok
holding True. -/
def handle_clear_manual (conn : ConnectionState) : HandlerOutcome :=
  let cmd := manualCmd
  match conn with
  | .connected .ok => ⟨some cmd, "manual_cleared", .okFlag⟩
  | .connected (.exn e) => ⟨none, "manual_cleared", .errorOnly e⟩
  | .disconnected => ⟨none, "manual_cleared", .errorWouldSend "serial not connected" (pyStrip cmd)⟩

/-- The command intents of the spec: relay on/off, automatic mode on/off,
clear manual override. -/
inductive CommandIntent : Type where
  | setRelay (b : Bool) : CommandIntent
  | setAuto (b : Bool) : CommandIntent
  | clearManual : CommandIntent
deriving DecidableEq

/-- The outbound line codec implicit in the command construction of the
handlers (src/app.py lines 190, 210, 226), at the intent level: the
boolean is the truthiness of the coerced state. Total and pure by
construction. -/
def encode : CommandIntent → String
  | .setRelay b => "RELAY:" ++ (if b then "1" else "0") ++ "\n"
  | .setAuto b => "AUTO:" ++ (if b then "1" else "0") ++ "\n"
  | .clearManual => "MANUAL:0\n"

/-- Event name of the acknowledgement each intent receives. -/
def eventName : CommandIntent → String
  | .setRelay _ => "relay_ack"
  | .setAuto _ => "auto_ack"
  | .clearManual => "manual_cleared"

/-- Dispatch of a command intent: the handler that serves it, fed the
canonical integer payload (state 1 for true, 0 for false) a client sends
for that intent; clear_manual carries no payload. -/
def dispatch (i : CommandIntent) (conn : ConnectionState) : HandlerOutcome :=
  match i with
  | .setRelay b => handle_toggle (some (PyValue.int (if b then 1 else 0))) conn
  | .setAuto b => handle_set_auto (some (PyValue.int (if b then 1 else 0))) conn
  | .clearManual => handle_clear_manual conn

/-- Rounding to one decimal place, the behavior of round(x, 1) in
fake_sensor_thread on the exact value of the float: round to the nearest
multiple of one tenth (the tie direction is irrelevant to every property
proved here). -/
def round1 (q : Rat) : Rat :=
  (round (10 * q) : Int) / 10

/-- The telemetry dictionary synthesized by one iteration of
fake_sensor_thread (src/app.py lines 172-178). -/
structure FakeReading : Type where
  mq : Int
  soil : Int
  temp : Rat
  hum : Rat
  relay : Int
deriving DecidableEq

/-- One iteration of fake_sensor_thread (src/app.py lines 171-180) as a
function of the four draws of the random source: mqD from
random.randint(300, 700), soilD from random.randint(20, 80), tempD from
random.uniform(22.0, 30.0) and humD from random.uniform(35.0, 70.0); the
library guarantees each draw lies in its closed interval. The reading is
emitted as a sensor_update event with relay fixed at 0. -/
def fakeSensorReading (mqD soilD : Int) (tempD humD : Rat) : FakeReading :=
  ⟨mqD, soilD, round1 tempD, round1 humD, 0⟩

/-- Helper: rounding to one decimal stays inside an interval with integer
endpoints. -/
theorem round1_interval (lo hi : Int) (q : Rat) (h1 : (lo : Rat) ≤ q) (h2 : q ≤ (hi : Rat)) :
    (lo : Rat) ≤ round1 q ∧ round1 q ≤ (hi : Rat) := by
  have hlow : (10 * lo : Int) ≤ round (10 * q) := by
    rw [round_eq]
    refine Int.le_floor.mpr ?_
    push_cast
    linarith
  have hup : round (10 * q) ≤ (10 * hi : Int) := by
    rw [round_eq]
    have hf : ((⌊10 * q + 1 / 2⌋ : Int) : Rat) ≤ 10 * q + 1 / 2 := Int.floor_le _
    have hlt : ((⌊10 * q + 1 / 2⌋ : Int) : Rat) < ((10 * hi : Int) : Rat) + 1 := by
      push_cast
      push_cast at hf
      linarith
    exact Int.lt_add_one_iff.mp (by exact_mod_cast hlt)
  have hlow10 : ((10 * lo : Int) : Rat) ≤ ((round (10 * q) : Int) : Rat) := by
    exact_mod_cast hlow
  have hup10 : ((round (10 * q) : Int) : Rat) ≤ ((10 * hi : Int) : Rat) := by
    exact_mod_cast hup
  unfold round1
  push_cast at hlow10 hup10
  constructor
  · linarith
  · linarith

/-- C4: the outbound codec is total and pure, and satisfies the five
protocol equations: SetRelay(true) encodes to RELAY:1, SetRelay(false) to
RELAY:0, SetAuto(true) to AUTO:1, SetAuto(false) to AUTO:0 and ClearManual
to MANUAL:0, each newline-terminated. -/
theorem encode_totality_equations :
    encode (CommandIntent.setRelay true) = "RELAY:1\n"
  ∧ encode (CommandIntent.setRelay false) = "RELAY:0\n"
  ∧ encode (CommandIntent.setAuto true) = "AUTO:1\n"
  ∧ encode (CommandIntent.setAuto false) = "AUTO:0\n"
  ∧ encode CommandIntent.clearManual = "MANUAL:0\n" :=
  ⟨rfl, rfl, rfl, rfl, rfl⟩

/-- C1: a non-blank serial line whose structured parse yields an object
containing all five required keys is classified as telemetry with exactly
the parsed fields and emitted as a sensor_update event; a line whose
structured parse fails is classified as an opaque line carrying the
stripped text verbatim and emitted as a serial_line event. -/
theorem decode_telemetry_and_passthrough (raw : String) (parse : String → Option Json)
    (kvs : List (String × Json)) (hraw : pyStrip raw ≠ "") :
    (parse (pyStrip raw) = some (Json.obj kvs) → subsetKeys requiredKeys kvs = true →
      read_loop_body raw parse = some (DecodeOutcome.sensorUpdate kvs))
  ∧ (parse (pyStrip raw) = none →
      read_loop_body raw parse = some (DecodeOutcome.serialLine (pyStrip raw))) := by
  have h0 : raw ≠ "" := by
    intro h
    apply hraw
    rw [h]
    decide
  constructor
  · intro hp hsub
    simp [read_loop_body, h0, hraw, hp, decode, hsub]
  · intro hp
    simp [read_loop_body, h0, hraw, hp, decode]

/-- Witness for C1: the scenario line with the five keys parses to
telemetry with identical fields, and the line hello world with a failing
parse is passed through as a serial_line event. -/
theorem decode_telemetry_and_passthrough_witness :
    read_loop_body "\x7b\x22mq\x22:450,\x22soil\x22:55,\x22temp\x22:26.3,\x22hum\x22:48.1,\x22relay\x22:1\x7d"
      (fun _ => some (Json.obj [("mq", Json.num 450), ("soil", Json.num 55),
        ("temp", Json.num (263 / 10)), ("hum", Json.num (481 / 10)), ("relay", Json.num 1)]))
      = some (DecodeOutcome.sensorUpdate [("mq", Json.num 450), ("soil", Json.num 55),
        ("temp", Json.num (263 / 10)), ("hum", Json.num (481 / 10)), ("relay", Json.num 1)])
  ∧ read_loop_body "hello world" (fun _ => none)
      = some (DecodeOutcome.serialLine "hello world") := by
  constructor
  · exact (decode_telemetry_and_passthrough
      "\x7b\x22mq\x22:450,\x22soil\x22:55,\x22temp\x22:26.3,\x22hum\x22:48.1,\x22relay\x22:1\x7d"
      (fun _ => some (Json.obj [("mq", Json.num 450), ("soil", Json.num 55),
        ("temp", Json.num (263 / 10)), ("hum", Json.num (481 / 10)), ("relay", Json.num 1)]))
      [("mq", Json.num 450), ("soil", Json.num 55), ("temp", Json.num (263 / 10)),
        ("hum", Json.num (481 / 10)), ("relay", Json.num 1)]
      (by decide)).1 rfl (by decide)
  · have hw : pyStrip "hello world" = "hello world" := by decide
    have := (decode_telemetry_and_passthrough "hello world" (fun _ => none) [] (by decide)).2 rfl
    rw [hw] at this
    exact this

/-- C9: a structured line whose key set strictly contains the five required
keys (an extra key k is present that is not required) is still classified
as telemetry, not as an opaque line, and the emitted sensor_update carries
the whole parsed object, extras included. -/
theorem decode_extra_keys_telemetry (line : String) (kvs : List (String × Json)) (k : String)
    (hsub : subsetKeys requiredKeys kvs = true)
    (_hk : (kvs.map Prod.fst).contains k = true)
    (_hknew : requiredKeys.contains k = false) :
    decode line (some (Json.obj kvs)) = DecodeOutcome.sensorUpdate kvs
  ∧ (∀ l, decode line (some (Json.obj kvs)) ≠ DecodeOutcome.serialLine l) := by
  constructor
  · simp [decode, hsub]
  · intro l
    simp [decode, hsub]

/-- Witness for C9: an object with the five required keys plus an extra key
is emitted as telemetry carrying all six entries. -/
theorem decode_extra_keys_telemetry_witness :
    decode "line" (some (Json.obj [("mq", Json.num 450), ("soil", Json.num 55),
        ("temp", Json.num (263 / 10)), ("hum", Json.num (481 / 10)), ("relay", Json.num 1),
        ("extra", Json.num 7)]))
      = DecodeOutcome.sensorUpdate [("mq", Json.num 450), ("soil", Json.num 55),
        ("temp", Json.num (263 / 10)), ("hum", Json.num (481 / 10)), ("relay", Json.num 1),
        ("extra", Json.num 7)] :=
  (decode_extra_keys_telemetry "line" [("mq", Json.num 450), ("soil", Json.num 55),
    ("temp", Json.num (263 / 10)), ("hum", Json.num (481 / 10)), ("relay", Json.num 1),
    ("extra", Json.num 7)] "extra" (by decide) (by decide) (by decide)).1

/-- C3 counterexample: the line 42 parses as a JSON number, not an object,
so data.keys() raises and the catch-all of the read loop drops the line:
the outcome is neither of the two variants and nothing is delivered. -/
theorem decode_nonobject_line_dropped :
    decode "42" (some (Json.num 42)) = DecodeOutcome.raised
  ∧ (decode "42" (some (Json.num 42))).delivered = false :=
  ⟨rfl, rfl⟩

/-- C3 amended: decoding is total on lines that fail structured parsing or
parse to an object, and then delivers exactly one of the two variants; a
line parsing to a non-object value instead reaches the raised outcome (the
internal AttributeError), which the read loop swallows without delivering
anything. -/
theorem decode_delivery_amended (line : String) (parsed : Option Json) :
    (decode line parsed = DecodeOutcome.raised ↔ ∃ j, parsed = some j ∧ j.isObj = false)
  ∧ ((decode line parsed).delivered = true →
      (∃ kvs, decode line parsed = DecodeOutcome.sensorUpdate kvs)
        ∨ decode line parsed = DecodeOutcome.serialLine line) := by
  constructor
  · cases parsed with
    | none => simp [decode]
    | some j =>
      cases j with
      | obj kvs =>
        constructor
        · intro h
          by_cases hs : subsetKeys requiredKeys kvs = true <;> simp [decode, hs] at h
        · rintro ⟨j, hj, hobj⟩
          have hje : Json.obj kvs = j := by injection hj
          rw [← hje] at hobj
          simp [Json.isObj] at hobj
      | null => exact ⟨fun _ => ⟨Json.null, rfl, rfl⟩, fun _ => rfl⟩
      | bool b => exact ⟨fun _ => ⟨Json.bool b, rfl, rfl⟩, fun _ => rfl⟩
      | num q => exact ⟨fun _ => ⟨Json.num q, rfl, rfl⟩, fun _ => rfl⟩
      | str s => exact ⟨fun _ => ⟨Json.str s, rfl, rfl⟩, fun _ => rfl⟩
      | arr elems => exact ⟨fun _ => ⟨Json.arr elems, rfl, rfl⟩, fun _ => rfl⟩
  · intro hd
    cases parsed with
    | none => exact Or.inr rfl
    | some j =>
      cases j with
      | obj kvs =>
        by_cases hs : subsetKeys requiredKeys kvs = true
        · exact Or.inl ⟨kvs, by simp [decode, hs]⟩
        · exact Or.inr (by simp [decode, hs])
      | null => simp [decode, DecodeOutcome.delivered] at hd
      | bool b => simp [decode, DecodeOutcome.delivered] at hd
      | num q => simp [decode, DecodeOutcome.delivered] at hd
      | str s => simp [decode, DecodeOutcome.delivered] at hd
      | arr elems => simp [decode, DecodeOutcome.delivered] at hd

/-- Witness for the amended C3: a parse failure is delivered as a
serial_line event. -/
theorem decode_delivery_amended_witness :
    (∃ kvs, decode "hello" none = DecodeOutcome.sensorUpdate kvs)
      ∨ decode "hello" none = DecodeOutcome.serialLine "hello" :=
  (decode_delivery_amended "hello" none).2 rfl

/-- C2 counterexample: with the serial absent, toggle_relay with state 1
returns the failure with reason serial not connected, but the carried
would_send is the stripped command RELAY:1, not the exact wire text
with its trailing newline. -/
theorem disconnected_would_send_stripped :
    handle_toggle (some (PyValue.int 1)) ConnectionState.disconnected
      = ⟨none, "relay_ack", AckPayload.errorWouldSend "serial not connected" "RELAY:1"⟩
  ∧ (handle_toggle (some (PyValue.int 1)) ConnectionState.disconnected).payload
      ≠ AckPayload.errorWouldSend "serial not connected" "RELAY:1\n" := by
  exact ⟨by decide, by decide⟩

/-- C2 amended: for every command intent, dispatching while disconnected
writes nothing to the device and returns the failure with reason serial not
connected, carrying the would-be-sent text with its surrounding whitespace
(the trailing newline) stripped. -/
theorem dispatch_disconnected_failure (i : CommandIntent) :
    dispatch i ConnectionState.disconnected
      = ⟨none, eventName i,
          AckPayload.errorWouldSend "serial not connected" (pyStrip (encode i))⟩ := by
  cases i with
  | setRelay b => cases b <;> decide
  | setAuto b => cases b <;> decide
  | clearManual => decide

/-- C6 counterexample: a failing write while connected yields a failure
acknowledgement that carries only the exception text and no would_send
entry. -/
theorem write_failure_ack_no_would_send :
    ((handle_toggle (some (PyValue.int 1))
        (ConnectionState.connected (WriteResult.exn "write timeout"))).payload).isFailure = true
  ∧ ((handle_toggle (some (PyValue.int 1))
        (ConnectionState.connected (WriteResult.exn "write timeout"))).payload).hasWouldSend
      = false
  ∧ (handle_toggle (some (PyValue.int 1))
        (ConnectionState.connected (WriteResult.exn "write timeout"))).payload
      = AckPayload.errorOnly "write timeout" :=
  ⟨rfl, rfl, rfl⟩

/-- C6 amended: every failure acknowledgement carries a human-readable
reason; the disconnected failures additionally carry the stripped
would-be-sent command, while write failures carry only the exception text
and no would_send entry. -/
theorem failure_ack_contents (i : CommandIntent) (e : String) :
    (dispatch i ConnectionState.disconnected).payload
      = AckPayload.errorWouldSend "serial not connected" (pyStrip (encode i))
  ∧ (dispatch i (ConnectionState.connected (WriteResult.exn e))).payload
      = AckPayload.errorOnly e
  ∧ ((dispatch i (ConnectionState.connected (WriteResult.exn e))).payload).hasWouldSend
      = false := by
  refine ⟨?_, ?_, ?_⟩ <;>
    cases i with
    | setRelay b => cases b <;> rfl
    | setAuto b => cases b <;> rfl
    | clearManual => rfl

/-- C7: dispatching while connected with a successful write sends exactly
the encoded command line and acknowledges with the applied boolean state
(for ClearManual, the ok flag); in particular toggle_relay with state 0
while connected acknowledges with sent 0 after writing RELAY:0. -/
theorem dispatch_connected_write_ok :
    (∀ b : Bool,
      dispatch (CommandIntent.setRelay b) (ConnectionState.connected WriteResult.ok)
        = ⟨some (encode (CommandIntent.setRelay b)), "relay_ack",
            AckPayload.sent (if b then 1 else 0)⟩)
  ∧ (∀ b : Bool,
      dispatch (CommandIntent.setAuto b) (ConnectionState.connected WriteResult.ok)
        = ⟨some (encode (CommandIntent.setAuto b)), "auto_ack",
            AckPayload.sent (if b then 1 else 0)⟩)
  ∧ dispatch CommandIntent.clearManual (ConnectionState.connected WriteResult.ok)
      = ⟨some (encode CommandIntent.clearManual), "manual_cleared", AckPayload.okFlag⟩
  ∧ handle_toggle (some (PyValue.int 0)) (ConnectionState.connected WriteResult.ok)
      = ⟨some "RELAY:0\n", "relay_ack", AckPayload.sent 0⟩ := by
  refine ⟨fun b => ?_, fun b => ?_, by decide, by decide⟩
  · cases b <;> decide
  · cases b <;> decide

/-- C8: the state flag of toggle_relay and set_auto is coerced best-effort:
a missing entry defaults to 0, a value the int builtin rejects defaults to
0, the command encodes the truthiness state different from zero, and the
handlers always answer with their normal acknowledgement event. -/
theorem state_coercion_permissive :
    coerceState none = 0
  ∧ (∀ x : PyValue, pyInt x = none → coerceState (some x) = 0)
  ∧ (∀ v : Option PyValue,
      relayCmd (coerceState v) = encode (CommandIntent.setRelay (coerceState v != 0))
      ∧ autoCmd (coerceState v) = encode (CommandIntent.setAuto (coerceState v != 0)))
  ∧ (∀ v : Option PyValue, ∀ conn : ConnectionState,
      (handle_toggle v conn).event = "relay_ack"
      ∧ (handle_set_auto v conn).event = "auto_ack") := by
  refine ⟨rfl, ?_, ?_, ?_⟩
  · intro x hx
    simp [coerceState, hx]
  · intro v
    by_cases h : coerceState v = 0
    · rw [h]
      exact ⟨rfl, rfl⟩
    · have hb : (coerceState v != 0) = true := by simp [h]
      rw [hb]
      unfold relayCmd autoCmd encode
      rw [if_neg h]
      exact ⟨rfl, rfl⟩
  · intro v conn
    cases conn with
    | connected w => cases w <;> exact ⟨rfl, rfl⟩
    | disconnected => exact ⟨rfl, rfl⟩

/-- Witness for C8: a non-numeric string and the Python value None coerce
to 0, as does a missing state entry. -/
theorem state_coercion_permissive_witness :
    coerceState (some (PyValue.str "banana")) = 0
  ∧ coerceState (some PyValue.noneV) = 0
  ∧ coerceState none = 0 :=
  ⟨state_coercion_permissive.2.1 (PyValue.str "banana") (by decide),
    state_coercion_permissive.2.1 PyValue.noneV rfl,
    state_coercion_permissive.1⟩

/-- C10: when connected with a successful write, the acknowledgements echo
the coerced integer state exactly as received: for any integer outside 0
and 1 the device is sent the normalized RELAY:1 or AUTO:1 line while the
acknowledgement carries the raw integer. -/
theorem ack_echoes_raw_state (n : Int) (h0 : n ≠ 0) (h1 : n ≠ 1) :
    handle_toggle (some (PyValue.int n)) (ConnectionState.connected WriteResult.ok)
      = ⟨some "RELAY:1\n", "relay_ack", AckPayload.sent n⟩
  ∧ handle_set_auto (some (PyValue.int n)) (ConnectionState.connected WriteResult.ok)
      = ⟨some "AUTO:1\n", "auto_ack", AckPayload.sent n⟩
  ∧ AckPayload.sent n ≠ AckPayload.sent 1
  ∧ AckPayload.sent n ≠ AckPayload.sent 0 := by
  have hr : relayCmd n = "RELAY:1\n" := by
    unfold relayCmd
    rw [if_neg h0]
    rfl
  have ha : autoCmd n = "AUTO:1\n" := by
    unfold autoCmd
    rw [if_neg h0]
    rfl
  refine ⟨?_, ?_, ?_, ?_⟩
  · show (⟨some (relayCmd n), "relay_ack", AckPayload.sent n⟩ : HandlerOutcome) = _
    rw [hr]
  · show (⟨some (autoCmd n), "auto_ack", AckPayload.sent n⟩ : HandlerOutcome) = _
    rw [ha]
  · intro h
    exact h1 (AckPayload.sent.inj h)
  · intro h
    exact h0 (AckPayload.sent.inj h)

/-- Witness for C10: state 5 while connected writes RELAY:1 and AUTO:1 but
acknowledges with sent 5. -/
theorem ack_echoes_raw_state_witness :
    handle_toggle (some (PyValue.int 5)) (ConnectionState.connected WriteResult.ok)
      = ⟨some "RELAY:1\n", "relay_ack", AckPayload.sent 5⟩
  ∧ handle_set_auto (some (PyValue.int 5)) (ConnectionState.connected WriteResult.ok)
      = ⟨some "AUTO:1\n", "auto_ack", AckPayload.sent 5⟩ :=
  ⟨(ack_echoes_raw_state 5 (by decide) (by decide)).1,
    (ack_echoes_raw_state 5 (by decide) (by decide)).2.1⟩

/-- C5: every simulated reading lies in the documented ranges, whatever the
random draws within the library contracts: mq in 300..700, soil in 20..80,
temp in 22..30 and hum in 35..70 each rounded to one decimal place, and
relay fixed at 0. -/
theorem fake_reading_in_ranges (mqD soilD : Int) (tempD humD : Rat)
    (hmq1 : 300 ≤ mqD) (hmq2 : mqD ≤ 700)
    (hsoil1 : 20 ≤ soilD) (hsoil2 : soilD ≤ 80)
    (htemp1 : (22 : Rat) ≤ tempD) (htemp2 : tempD ≤ (30 : Rat))
    (hhum1 : (35 : Rat) ≤ humD) (hhum2 : humD ≤ (70 : Rat)) :
    300 ≤ (fakeSensorReading mqD soilD tempD humD).mq
  ∧ (fakeSensorReading mqD soilD tempD humD).mq ≤ 700
  ∧ 20 ≤ (fakeSensorReading mqD soilD tempD humD).soil
  ∧ (fakeSensorReading mqD soilD tempD humD).soil ≤ 80
  ∧ (22 : Rat) ≤ (fakeSensorReading mqD soilD tempD humD).temp
  ∧ (fakeSensorReading mqD soilD tempD humD).temp ≤ (30 : Rat)
  ∧ (∃ k : Int, (fakeSensorReading mqD soilD tempD humD).temp = (k : Rat) / 10)
  ∧ (35 : Rat) ≤ (fakeSensorReading mqD soilD tempD humD).hum
  ∧ (fakeSensorReading mqD soilD tempD humD).hum ≤ (70 : Rat)
  ∧ (∃ k : Int, (fakeSensorReading mqD soilD tempD humD).hum = (k : Rat) / 10)
  ∧ (fakeSensorReading mqD soilD tempD humD).relay = 0 := by
  have ht := round1_interval 22 30 tempD (by exact_mod_cast htemp1) (by exact_mod_cast htemp2)
  have hh := round1_interval 35 70 humD (by exact_mod_cast hhum1) (by exact_mod_cast hhum2)
  refine ⟨hmq1, hmq2, hsoil1, hsoil2, ?_, ?_, ⟨round (10 * tempD), rfl⟩,
    ?_, ?_, ⟨round (10 * humD), rfl⟩, rfl⟩
  · exact_mod_cast ht.1
  · exact_mod_cast ht.2
  · exact_mod_cast hh.1
  · exact_mod_cast hh.2

/-- Witness for C5: concrete draws in the middle of each range give a
reading satisfying all the bounds. -/
theorem fake_reading_in_ranges_witness :
    300 ≤ (fakeSensorReading 500 50 25 50).mq
  ∧ (fakeSensorReading 500 50 25 50).mq ≤ 700
  ∧ 20 ≤ (fakeSensorReading 500 50 25 50).soil
  ∧ (fakeSensorReading 500 50 25 50).soil ≤ 80
  ∧ (22 : Rat) ≤ (fakeSensorReading 500 50 25 50).temp
  ∧ (fakeSensorReading 500 50 25 50).temp ≤ (30 : Rat)
  ∧ (∃ k : Int, (fakeSensorReading 500 50 25 50).temp = (k : Rat) / 10)
  ∧ (35 : Rat) ≤ (fakeSensorReading 500 50 25 50).hum
  ∧ (fakeSensorReading 500 50 25 50).hum ≤ (70 : Rat)
  ∧ (∃ k : Int, (fakeSensorReading 500 50 25 50).hum = (k : Rat) / 10)
  ∧ (fakeSensorReading 500 50 25 50).relay = 0 :=
  fake_reading_in_ranges 500 50 25 50 (by decide) (by decide) (by decide) (by decide)
    (by decide) (by decide) (by decide) (by decide)

end App
